import Mathlib

/-!
Verification development for the WASM module lifecycle core of the Ambient
repository (`crates/wasm/src/shared/mod.rs` and
`crates/scripting/host/src/shared/implementation/event.rs`).

The stateful Rust code is shallowly embedded as pure functions over an explicit
`World` record.  Entity ids are `Nat`; component storages are either
association lists (when the code iterates them) or finite-support maps
`Nat → Option _` (when the code only looks entities up).  Host-visible effects
that the code performs through collaborators not present in the excerpt
(the messenger callback, `Message::run` dispatch, thread spawning) are recorded
in explicit trace fields of the `World`, as described in each definition's
doc comment.
-/

/-- Kinds of host messenger notification, from `MessageType` in
`crates/wasm/src/shared/mod.rs` lines 72-79. -/
inductive MessageType where
  | Info
  | Warn
  | Error
  | Stdout
  | Stderr
deriving DecidableEq, Repr

/-- Event payloads (`Entity` / `EntityData` in the source) are opaque to the
router; they are modelled as a list of named numeric fields. -/
abbrev EventData := List (String × Nat)

/-- Possible outcomes of a guest call wrapped by `run_and_catch_panics`
(`mod.rs` lines 379-399).  A Rust closure returning `anyhow::Result<R>` can:
return `Ok`; return `Err` (carrying a display string and a root-cause string,
from `e.to_string()` and `e.root_cause().to_string()`); or panic with a
`String` payload, a `&str` payload, or any other payload.  Abnormal
termination itself is not directly expressible in a shallow embedding, so the
outcome of the call is reified in this type and `run_and_catch_panics` is the
translation of the `match` on `catch_unwind`'s result. -/
inductive CallOutcome (R : Type) where
  | ok (value : R)
  | errResult (display : String) (rootCause : String)
  | panicString (payload : String)
  | panicStr (payload : String)
  | panicOther

/-- Translation of `run_and_catch_panics` (`mod.rs` lines 379-399): a normal
`Ok` passes through; a normal `Err` is rendered as its display string, with
the root cause appended when it differs; a panic is downcast to `String`,
then `&str`, then rendered as "unknown error". -/
def run_and_catch_panics {R : Type} : CallOutcome R → Except String R
  | .ok r => .ok r
  | .errResult display root =>
      .error (if root = display then display
              else display ++ "\nRoot cause: " ++ root)
  | .panicString s => .error s
  | .panicStr s => .error s
  | .panicOther => .error "unknown error"

/-- Modelled from the spec: `ModuleState` (`module.rs`, not in the excerpt) is
the opaque running instance.  Per spec section 3 and section 9 it exposes a set of
subscribed event names, the set of entities it has spawned, and an opaque
execution context.  The execution context is modelled by `behavior`, giving
the outcome of `state.run` for each event name (guest-side world mutation is
outside the excerpt and not modelled). -/
@[ext]
structure ModuleState where
  subscribed_event_names : List String
  spawned_entities : List Nat
  behavior : String → CallOutcome Unit

/-- Modelled from the spec: `ModuleState::listen_to_event` adds a name to the
subscription set (idempotent add, spec section 4.2). -/
def ModuleState.listen_to_event (st : ModuleState) (name : String) : ModuleState :=
  if st.subscribed_event_names.contains name then st
  else { st with subscribed_event_names := st.subscribed_event_names ++ [name] }

/-- Modelled from the spec: `ModuleState::supports_event` tests membership in
the subscription set (spec section 9: `supports(event_name) -> bool`). -/
def ModuleState.supports_event (st : ModuleState) (name : String) : Bool :=
  st.subscribed_event_names.contains name

/-- Events dispatched through the `Message::run` machinery (`message.rs`, not
in the excerpt).  Modelled from the spec as an observable trace entry: the
frame event, one collision event per colliding pair (with the associated
entity ids), one batched collider-loads event, the module-load and
module-unload lifecycle events (targeted at one module), and queued custom
cross-module messages. -/
inductive SysEvent where
  | frame
  | collision (ids : List Nat)
  | colliderLoads (ids : List Nat)
  | moduleLoad (target : Nat)
  | moduleUnload (target : Nat)
  | custom (name : String) (payload : EventData)
deriving DecidableEq, Repr

/-- A physics rigid actor, reduced to what `systems` reads from it
(`mod.rs` lines 148-154): the list of its shapes, each shape carrying an
optional `PxShapeUserData` entity. -/
abbrev Actor := List (Option Nat)

/-- Translation of the `select_entity` closure (`mod.rs` lines 148-154):
take the actor's first shape, if any, and its user-data entity, if any. -/
def select_entity (a : Actor) : Option Nat :=
  a.head?.join

/-- Entity ids carried by one collision event (`mod.rs` lines 156-159):
both actors' selected entities, flattened. -/
def collisionIds (p : Actor × Actor) : List Nat :=
  [select_entity p.1, select_entity p.2].filterMap id

/-- Lookup in an association list keyed by entity id. -/
def lookupM {α : Type} : List (Nat × α) → Nat → Option α
  | [], _ => none
  | (k, v) :: rest, id => if k = id then some v else lookupM rest id

/-- Remove every binding for an entity id from an association list
(`World::remove_component`). -/
def eraseM {α : Type} : List (Nat × α) → Nat → List (Nat × α)
  | [], _ => []
  | (k, v) :: rest, id =>
      if k = id then eraseM rest id else (k, v) :: eraseM rest id

/-- Add or replace the binding for an entity id
(`World::add_component`). -/
def insertM {α : Type} (l : List (Nat × α)) (id : Nat) (v : α) : List (Nat × α) :=
  (id, v) :: eraseM l id

/-- Pointwise update of a finite-support component map. -/
def setAt {α : Type} (f : Nat → Option α) (id : Nat) (v : Option α) : Nat → Option α :=
  fun j => if j = id then v else f j

/-- The world, restricted to what the excerpted code reads and writes.
Component storages model the ECS components declared in `mod.rs` lines 37-56;
`module_state` is an association list because `run_all` iterates it.  The
remaining fields record, as observable traces or inputs, the effects the code
performs through collaborators outside the excerpt: `notes` records every
messenger invocation in order; `dispatched` records every `Message::run`
dispatch in order; `delivered` records every invocation of a running instance
by `run`; `pending_compiles` records compilations spawned by `load` (the
worker thread's completion is applied by `load_complete`); `collisions`,
`collider_loads` and `pending_messages` are the resources read by the per-tick
systems; `enabled_changed` and `bytecode_changed` are the ids reported by the
ECS change tracking for `module_enabled` and `module_bytecode` this tick. -/
@[ext]
structure World where
  module_state : List (Nat × ModuleState)
  module_errors : Nat → Option (List String)
  module_bytecode : Nat → Option (List Nat)
  module_enabled : Nat → Option Bool
  dont_despawn : Nat → Bool
  alive : Nat → Bool
  time : Nat
  notes : List (Nat × MessageType × String)
  dispatched : List SysEvent
  delivered : List (Nat × String)
  pending_compiles : List (Nat × List Nat)
  collisions : Option (List (Actor × Actor))
  collider_loads : Option (List Nat)
  pending_messages : List (String × EventData)
  enabled_changed : List Nat
  bytecode_changed : List Nat

/-- A world with no modules, no live entities and empty traces. -/
def emptyWorld : World where
  module_state := []
  module_errors := fun _ => none
  module_bytecode := fun _ => none
  module_enabled := fun _ => none
  dont_despawn := fun _ => false
  alive := fun _ => false
  time := 0
  notes := []
  dispatched := []
  delivered := []
  pending_compiles := []
  collisions := none
  collider_loads := none
  pending_messages := []
  enabled_changed := []
  bytecode_changed := []

/-- `MAXIMUM_ERROR_COUNT` (`mod.rs` line 70); the spec calls it ERROR_LIMIT. -/
def MAXIMUM_ERROR_COUNT : Nat := 5

/-- Modelled from the spec: the module-message event-name root
(`events::MODULE_MESSAGE` in `ambient_shared_types`, not in the excerpt).
Its exact value is irrelevant to the claims. -/
def MODULE_MESSAGE : String := "core/module_message"

/-- Modelled from the spec: the id of the generated per-tick `Frame` message
(`messages::Frame::id()`, generated code not in the excerpt). -/
def FRAME_ID : String := "frame"

/-- Modelled from the spec: the id of the generated one-time `ModuleLoad`
message (`messages::ModuleLoad::id()`, generated code not in the excerpt). -/
def MODULE_LOAD_ID : String := "module_load"

/-- The two mandatory system messages every instance is pre-subscribed to
(`mod.rs` lines 267-268). -/
def autosubscribe_messages : List String := [FRAME_ID, MODULE_LOAD_ID]

/-- Translation of the despawn loop in `unload` (`mod.rs` lines 345-349):
each spawned entity is despawned unless it carries
`dont_despawn_on_unload`.  Despawning is modelled as clearing `alive`. -/
def despawn_spawned : World → List Nat → World
  | w, [] => w
  | w, e :: rest =>
      let w2 := if w.dont_despawn e then w
                else { w with alive := fun j => if j = e then false else w.alive j }
      despawn_spawned w2 rest

/-- Translation of `unload` (`mod.rs` lines 325-358).  No-op when the module
has no `module_state` component.  Otherwise: dispatch one `ModuleUnload`
event to the module (recorded in the `dispatched` trace; `Message::run` is
outside the excerpt), drain the state's spawned entities, clear the error log
when the component exists, remove `module_state`, despawn every drained
entity not marked persistent, and emit one Info messenger notification naming
the reason. -/
def unload (w : World) (module_id : Nat) (reason : String) : World :=
  match lookupM w.module_state module_id with
  | none => w
  | some st =>
      let w1 := { w with dispatched := w.dispatched ++ [SysEvent.moduleUnload module_id] }
      let spawned := st.spawned_entities
      let w2 := match w1.module_errors module_id with
                | some _ => { w1 with module_errors := setAt w1.module_errors module_id (some []) }
                | none => w1
      let w3 := { w2 with module_state := eraseM w2.module_state module_id }
      let w4 := despawn_spawned w3 spawned
      { w4 with notes := w4.notes ++
          [(module_id, MessageType.Info, "Unloaded (reason: " ++ reason ++ ")")] }

/-- Translation of the per-error body of `update_errors` (`mod.rs` lines
288-304): notify the messenger with Error kind and the "Runtime error: "
prefix; then, only if the module still has a `module_errors` component, push
the error and force-unload with reason "too many errors" when the log length
now exceeds `MAXIMUM_ERROR_COUNT`. -/
def update_errors_one (w : World) (id : Nat) (err : String) : World :=
  let w1 := { w with notes := w.notes ++ [(id, MessageType.Error, "Runtime error: " ++ err)] }
  match w1.module_errors id with
  | none => w1
  | some errs =>
      let newErrs := errs ++ [err]
      let w2 := { w1 with module_errors := setAt w1.module_errors id (some newErrs) }
      if newErrs.length > MAXIMUM_ERROR_COUNT then unload w2 id "too many errors" else w2

/-- Translation of `update_errors` (`mod.rs` lines 286-305): apply the error
policy to each reported (module, error) pair in order. -/
def update_errors (w : World) (errors : List (Nat × String)) : World :=
  errors.foldl (fun wa p => update_errors_one wa p.1 p.2) w

/-- The per-dispatch context (`RunContext`, `mod.rs` lines 81-97).  The `f32`
timestamp is modelled as an opaque `Nat`. -/
structure RunContext where
  event_name : String
  event_data : EventData
  time : Nat

/-- Translation of `run` (`mod.rs` lines 307-323): skip the module when the
event name is not in its subscriptions; otherwise invoke the instance
(recorded in the `delivered` trace), wrap the call in `run_and_catch_panics`,
and route a failure through `update_errors`. -/
def run (w : World) (id : Nat) (state : ModuleState) (context : RunContext) : World :=
  if state.supports_event context.event_name then
    let w1 := { w with delivered := w.delivered ++ [(id, context.event_name)] }
    match run_and_catch_panics (state.behavior context.event_name) with
    | .ok _ => w1
    | .error message => update_errors w1 [(id, message)]
  else w

/-- Translation of `run_all` (`mod.rs` lines 222-226): snapshot every
(id, module_state) pair, then run each against the context. -/
def run_all (w : World) (context : RunContext) : World :=
  w.module_state.foldl (fun wa p => run wa p.1 p.2 context) w

/-- One delivery attempt of an event to a single module, exactly as `run_all`
performs it for one snapshot entry: look the state up and call `run`. -/
def dispatch_to (w : World) (id : Nat) (context : RunContext) : World :=
  match lookupM w.module_state id with
  | none => w
  | some st => run w id st context

/-- Iterated consecutive dispatches of the same event to one module. -/
def dispatchN (w : World) (id : Nat) (context : RunContext) : Nat → World
  | 0 => w
  | n + 1 => dispatch_to (dispatchN w id context n) id context

/-- Translation of `load` (`mod.rs` lines 238-284) as seen by the simulation
thread at call time: compilation is spawned on a worker thread, so the only
immediate effect is that a compilation of this bytecode for this module is
now pending.  The worker's completion, delivered back through the
deferred-callback mechanism, is `load_complete`. -/
def load (w : World) (module_id : Nat) (component_bytecode : List Nat) : World :=
  { w with pending_compiles := w.pending_compiles ++ [(module_id, component_bytecode)] }

/-- Translation of the completion closure of `load` (`mod.rs` lines 246-282):
the maker call runs under `run_and_catch_panics`; on success the instance is
pre-subscribed to the two mandatory system messages (named under the
module-message root), installed as `module_state`, and one `ModuleLoad` event
is dispatched to the module; on failure the error is routed through
`update_errors`. -/
def load_complete (w : World) (module_id : Nat) (result : CallOutcome ModuleState) : World :=
  match run_and_catch_panics result with
  | .ok sms =>
      let sms2 := autosubscribe_messages.foldl
        (fun s i => s.listen_to_event (MODULE_MESSAGE ++ "/" ++ i)) sms
      let w1 := { w with module_state := insertM w.module_state module_id sms2 }
      { w1 with dispatched := w1.dispatched ++ [SysEvent.moduleLoad module_id] }
  | .error err => update_errors w [(module_id, err)]

/-- Translation of `reload` (`mod.rs` lines 228-236): unconditionally unload
with reason "reloading", then load the given bytecode when it is present and
non-empty.  Callers pass `enabled.then(bytecode)`, so the bytecode argument
is `some` exactly when the module is enabled. -/
def reload (w : World) (module_id : Nat) (bytecode : Option (List Nat)) : World :=
  let w1 := unload w module_id "reloading"
  match bytecode with
  | some bc => if bc = [] then w1 else load w1 module_id bc
  | none => w1

/-- Translation of the change-detection system (`mod.rs` lines 105-121): the
query `(module_bytecode(), module_enabled().changed())` yields the modules
possessing a bytecode component whose `module_enabled` component changed this
tick (the change filter is attached to `module_enabled` only); those whose
enabled flag differs from "has a module_state" are collected and reloaded
with `enabled.then(bytecode)`. -/
def reload_system (w : World) : World :=
  let modules := w.enabled_changed.filterMap (fun id =>
    match w.module_bytecode id, w.module_enabled id with
    | some bc, some enabled =>
        if enabled = (lookupM w.module_state id).isSome then none
        else some (id, if enabled then some bc else none)
    | _, _ => none)
  modules.foldl (fun wa p => reload wa p.1 p.2) w

/-- Formalisation of the claim's wording for change detection, for comparison
with `reload_system`: detection considers the modules for which a bytecode
change or an enabled-flag change occurred, with the same enabled-versus-state
filter.  This follows the spec's sentence, not the source. -/
def reload_system_claim (w : World) : World :=
  let modules := (w.bytecode_changed ++ w.enabled_changed).filterMap (fun id =>
    match w.module_bytecode id, w.module_enabled id with
    | some bc, some enabled =>
        if enabled = (lookupM w.module_state id).isSome then none
        else some (id, if enabled then some bc else none)
    | _, _ => none)
  modules.foldl (fun wa p => reload wa p.1 p.2) w

/-- Translation of the frame-event system (`mod.rs` lines 133-139): dispatch
one `Frame` message unconditionally.  `Message::run` (outside the excerpt) is
modelled from the spec as appending to the `dispatched` trace. -/
def frame_system (w : World) : World :=
  { w with dispatched := w.dispatched ++ [SysEvent.frame] }

/-- Translation of the collision-event system (`mod.rs` lines 140-165): skip
entirely when the physics `collisions` resource is absent; otherwise dispatch
one `Collision` message per colliding pair, carrying the associated entity
ids. -/
def collision_system (w : World) : World :=
  match w.collisions with
  | none => w
  | some pairs =>
      pairs.foldl
        (fun wa p => { wa with dispatched := wa.dispatched ++ [SysEvent.collision (collisionIds p)] }) w

/-- Translation of the collider-loads system (`mod.rs` lines 166-181): skip
when the resource is absent or the batch is empty; otherwise dispatch one
batched `ColliderLoads` message. -/
def collider_loads_system (w : World) : World :=
  match w.collider_loads with
  | none => w
  | some loads =>
      if loads.isEmpty then w
      else { w with dispatched := w.dispatched ++ [SysEvent.colliderLoads loads] }

/-- Translation of the pending-messages system (`mod.rs` lines 182-191): take
the whole queue, then run each message in order (`message::run` is outside
the excerpt and modelled from the spec as a dispatch-trace entry). -/
def pending_messages_system (w : World) : World :=
  let msgs := w.pending_messages
  let w1 := { w with pending_messages := [] }
  msgs.foldl (fun wa m => { wa with dispatched := wa.dispatched ++ [SysEvent.custom m.1 m.2] }) w1

/-- The per-tick synthesized event pipeline, in the order the systems appear
in `systems()` (`mod.rs` lines 133-191): frame, collisions, collider loads,
then the pending-message drain. -/
def tick_events (w : World) : World :=
  pending_messages_system (collider_loads_system (collision_system (frame_system w)))

/-- Translation of `EventSharedState` as used by
`crates/scripting/host/src/shared/implementation/event.rs`: the subscription
set and the queued (name, payload) events. -/
@[ext]
structure EventSharedState where
  subscribed_events : List String
  events : List (String × EventData)

/-- Translation of `subscribe` (`event.rs` lines 4-6): insert the name into
the subscription set. -/
def subscribe (s : EventSharedState) (name : String) : EventSharedState :=
  if s.subscribed_events.contains name then s
  else { s with subscribed_events := s.subscribed_events ++ [name] }

/-- Rust's `str::starts_with`, modelled executably as a character-list prefix
test (`String.startsWith` itself does not reduce in the kernel). -/
def starts_with (s p : String) : Bool :=
  p.data.isPrefixOf s.data

/-- Translation of `send` (`event.rs` lines 8-13): silently drop any event
whose name starts with the reserved "dims/" namespace; otherwise queue the
event for a later drain. -/
def send (s : EventSharedState) (name : String) (data : EventData) : EventSharedState :=
  if starts_with name "dims/" then s
  else { s with events := s.events ++ [(name, data)] }


/-! ### Trace shapes for the per-tick systems, and concrete sample data -/

/-- The collision events one tick synthesizes from the physics resource:
none when the resource is absent, one event per pair otherwise. -/
def collisionTrace : Option (List (Actor × Actor)) → List SysEvent
  | none => []
  | some pairs => pairs.map (fun p => SysEvent.collision (collisionIds p))

/-- The collider-loads events one tick synthesizes from the resource: none
when the resource is absent or the batch is empty, one batched event
otherwise. -/
def colliderTrace : Option (List Nat) → List SysEvent
  | none => []
  | some loads => if loads.isEmpty then [] else [SysEvent.colliderLoads loads]

/-- A running instance subscribed to the "frame" event whose every dispatch
fails with the error "boom". -/
def stFail : ModuleState where
  subscribed_event_names := ["frame"]
  spawned_entities := [3, 4]
  behavior := fun _ => CallOutcome.errResult "boom" "boom"

/-- A freshly compiled instance with no subscriptions, no spawned entities
and an always-succeeding behavior. -/
def freshState : ModuleState where
  subscribed_event_names := []
  spawned_entities := []
  behavior := fun _ => CallOutcome.ok ()

/-- A dispatch context for the "frame" event. -/
def ctxFrame : RunContext where
  event_name := "frame"
  event_data := []
  time := 0

/-- A world with one running module (entity 1, state `stFail`, empty error
log) that has spawned entities 3 and 4, where 4 is marked persistent. -/
def wRun : World := { emptyWorld with
  module_state := [(1, stFail)]
  module_errors := fun i => if i = 1 then some [] else none
  alive := fun i => i = 3 || i = 4 || i = 5
  dont_despawn := fun i => i = 4 }

/-- `wRun` with a two-entry error log on module 1. -/
def wErr : World :=
  { wRun with module_errors := fun i => if i = 1 then some ["e1", "e2"] else none }

/-- A world whose module 1 is enabled with non-empty bytecode but not
running, and whose error log is non-empty (as left behind by a failed
load). -/
def wStale : World := { emptyWorld with
  module_errors := fun i => if i = 1 then some ["stale error"] else none
  module_enabled := fun i => if i = 1 then some true else none
  module_bytecode := fun i => if i = 1 then some [7] else none }

/-- `wStale` with an empty error log, after a bytecode change was reported
this tick (and no enabled-flag change). -/
def wByte : World := { wStale with
  module_errors := fun i => if i = 1 then some [] else none
  bytecode_changed := [1] }

/-- An event-shared state with one subscription and one queued event. -/
def sEvents : EventSharedState where
  subscribed_events := ["x"]
  events := [("prev", [])]

/-! ### Helper lemmas about the component-map primitives -/

@[simp]
theorem lookupM_eraseM {α : Type} (l : List (Nat × α)) (id j : Nat) :
    lookupM (eraseM l id) j = if j = id then none else lookupM l j := by
  induction l with
  | nil => simp [lookupM, eraseM]
  | cons a rest ih =>
      obtain ⟨k, v⟩ := a
      by_cases hk : k = id
      · subst hk
        by_cases hj : j = k
        · subst hj
          simpa [eraseM] using ih
        · simp [lookupM, eraseM, ih, hj, Ne.symm hj]
      · by_cases hkj : k = j
        · subst hkj
          simp [lookupM, eraseM, hk, fun h : k = id => hk h]
        · simp [lookupM, eraseM, ih, hk, hkj]

@[simp]
theorem lookupM_insertM {α : Type} (l : List (Nat × α)) (id j : Nat) (v : α) :
    lookupM (insertM l id v) j = if j = id then some v else lookupM l j := by
  by_cases hj : j = id
  · subst hj
    simp [insertM, lookupM]
  · simp [insertM, lookupM, hj, Ne.symm hj]

@[simp]
theorem setAt_apply {α : Type} (f : Nat → Option α) (id j : Nat) (v : Option α) :
    setAt f id v j = if j = id then v else f j := rfl

/-! ### Helper lemmas about `despawn_spawned` -/

theorem despawn_spawned_eq (l : List Nat) (w : World) :
    despawn_spawned w l = { w with
      alive := fun j => if j ∈ l ∧ w.dont_despawn j = false then false else w.alive j } := by
  induction l generalizing w with
  | nil => simp [despawn_spawned]
  | cons e rest ih =>
      simp only [despawn_spawned]
      rw [ih]
      by_cases hd : w.dont_despawn e = true
      · rw [if_pos hd]
        congr 1
        funext j
        by_cases hj : j = e
        · subst hj
          simp [hd]
        · simp [hj]
      · rw [if_neg hd]
        have hd2 : w.dont_despawn e = false := by
          simpa using hd
        congr 1
        funext j
        by_cases hj : j = e
        · subst hj
          simp [hd2]
        · simp [hj]

/-! ### Characterizations of `unload` -/

theorem unload_not_running (w : World) (id : Nat) (r : String)
    (h : lookupM w.module_state id = none) :
    unload w id r = w := by
  simp only [unload, h]

theorem unload_run (w : World) (id : Nat) (st : ModuleState) (r : String)
    (h : lookupM w.module_state id = some st) :
    unload w id r = { w with
      module_state := eraseM w.module_state id,
      module_errors := fun j =>
        if j = id ∧ (w.module_errors id).isSome then some [] else w.module_errors j,
      alive := fun j =>
        if j ∈ st.spawned_entities ∧ w.dont_despawn j = false then false else w.alive j,
      dispatched := w.dispatched ++ [SysEvent.moduleUnload id],
      notes := w.notes ++ [(id, MessageType.Info, "Unloaded (reason: " ++ r ++ ")")] } := by
  cases hE : w.module_errors id with
  | none =>
      simp only [unload, h, hE, despawn_spawned_eq]
      congr 1
      funext j
      simp [hE]
  | some errs =>
      simp only [unload, h, hE, despawn_spawned_eq]
      congr 1
      funext j
      by_cases hj : j = id
      · subst hj
        simp [hE]
      · simp [hj]

/-! ### Characterizations of the error policy -/

theorem update_errors_single (w : World) (id : Nat) (err : String) :
    update_errors w [(id, err)] = update_errors_one w id err := by
  simp [update_errors]

theorem update_errors_one_no_component (w : World) (id : Nat) (err : String)
    (h : w.module_errors id = none) :
    update_errors_one w id err =
      { w with notes := w.notes ++ [(id, MessageType.Error, "Runtime error: " ++ err)] } := by
  simp only [update_errors_one, h]

theorem update_errors_one_under (w : World) (id : Nat) (err : String) (errs : List String)
    (h : w.module_errors id = some errs)
    (hlen : errs.length + 1 ≤ MAXIMUM_ERROR_COUNT) :
    update_errors_one w id err =
      { w with
        notes := w.notes ++ [(id, MessageType.Error, "Runtime error: " ++ err)],
        module_errors := setAt w.module_errors id (some (errs ++ [err])) } := by
  simp only [update_errors_one, h]
  rw [if_neg]
  simp only [List.length_append, List.length_singleton]
  omega

theorem update_errors_one_overflow (w : World) (id : Nat) (err : String) (errs : List String)
    (h : w.module_errors id = some errs)
    (hlen : MAXIMUM_ERROR_COUNT < errs.length + 1) :
    update_errors_one w id err =
      unload
        { w with
          notes := w.notes ++ [(id, MessageType.Error, "Runtime error: " ++ err)],
          module_errors := setAt w.module_errors id (some (errs ++ [err])) }
        id "too many errors" := by
  simp only [update_errors_one, h]
  rw [if_pos]
  simp only [List.length_append, List.length_singleton]
  omega

/-! ### Characterizations of `run` and `dispatch_to` -/

theorem run_not_subscribed (w : World) (id : Nat) (st : ModuleState) (c : RunContext)
    (h : st.supports_event c.event_name = false) :
    run w id st c = w := by
  simp [run, h]

theorem run_ok (w : World) (id : Nat) (st : ModuleState) (c : RunContext)
    (hsub : st.supports_event c.event_name = true)
    (h : run_and_catch_panics (st.behavior c.event_name) = Except.ok ()) :
    run w id st c = { w with delivered := w.delivered ++ [(id, c.event_name)] } := by
  simp only [run, hsub, if_true, h]

theorem run_err (w : World) (id : Nat) (st : ModuleState) (c : RunContext) (msg : String)
    (hsub : st.supports_event c.event_name = true)
    (h : run_and_catch_panics (st.behavior c.event_name) = Except.error msg) :
    run w id st c =
      update_errors_one { w with delivered := w.delivered ++ [(id, c.event_name)] } id msg := by
  simp only [run, hsub, if_true, h, update_errors, List.foldl]

/-! ### Step lemmas for consecutive failing dispatches -/

theorem dispatch_fail_under (w : World) (id : Nat) (st : ModuleState) (c : RunContext)
    (msg : String) (errs : List String)
    (hstate : lookupM w.module_state id = some st)
    (herrs : w.module_errors id = some errs)
    (hsub : st.supports_event c.event_name = true)
    (hfail : run_and_catch_panics (st.behavior c.event_name) = Except.error msg)
    (hlen : errs.length + 1 ≤ MAXIMUM_ERROR_COUNT) :
    lookupM (dispatch_to w id c).module_state id = some st
    ∧ (dispatch_to w id c).module_errors id = some (errs ++ [msg]) := by
  have h1 : dispatch_to w id c = run w id st c := by
    simp [dispatch_to, hstate]
  rw [h1, run_err w id st c msg hsub hfail]
  have herrs1 : ({ w with delivered := w.delivered ++ [(id, c.event_name)] } : World).module_errors id = some errs := herrs
  rw [update_errors_one_under _ id msg errs herrs1 hlen]
  refine ⟨hstate, ?_⟩
  simp

theorem dispatch_fail_over (w : World) (id : Nat) (st : ModuleState) (c : RunContext)
    (msg : String) (errs : List String)
    (hstate : lookupM w.module_state id = some st)
    (herrs : w.module_errors id = some errs)
    (hsub : st.supports_event c.event_name = true)
    (hfail : run_and_catch_panics (st.behavior c.event_name) = Except.error msg)
    (hlen : errs.length = MAXIMUM_ERROR_COUNT) :
    lookupM (dispatch_to w id c).module_state id = none
    ∧ (dispatch_to w id c).module_errors id = some []
    ∧ (id, MessageType.Info, "Unloaded (reason: too many errors)") ∈ (dispatch_to w id c).notes := by
  have h1 : dispatch_to w id c = run w id st c := by
    simp [dispatch_to, hstate]
  rw [h1, run_err w id st c msg hsub hfail]
  have herrs1 : ({ w with delivered := w.delivered ++ [(id, c.event_name)] } : World).module_errors id = some errs := herrs
  rw [update_errors_one_overflow _ id msg errs herrs1 (by omega)]
  have hst2 : lookupM ({ { w with delivered := w.delivered ++ [(id, c.event_name)] } with
      notes := w.notes ++ [(id, MessageType.Error, "Runtime error: " ++ msg)],
      module_errors := setAt w.module_errors id (some (errs ++ [msg])) } : World).module_state id = some st := hstate
  rw [unload_run _ id st "too many errors" hst2]
  refine ⟨by simp, by simp, ?_⟩
  simp

theorem dispatchN_fail_invariant (w : World) (id : Nat) (st : ModuleState) (c : RunContext)
    (msg : String)
    (hstate : lookupM w.module_state id = some st)
    (herrs : w.module_errors id = some [])
    (hsub : st.supports_event c.event_name = true)
    (hfail : run_and_catch_panics (st.behavior c.event_name) = Except.error msg) :
    ∀ k, k ≤ MAXIMUM_ERROR_COUNT →
      lookupM (dispatchN w id c k).module_state id = some st
      ∧ (dispatchN w id c k).module_errors id = some (List.replicate k msg) := by
  intro k
  induction k with
  | zero =>
      intro _
      exact ⟨hstate, by simpa using herrs⟩
  | succ n ih =>
      intro hk
      have hn := ih (by omega)
      have hlen : (List.replicate n msg).length + 1 ≤ MAXIMUM_ERROR_COUNT := by
        simp only [List.length_replicate]
        omega
      have step := dispatch_fail_under (dispatchN w id c n) id st c msg (List.replicate n msg)
        hn.1 hn.2 hsub hfail hlen
      have hrep : List.replicate n msg ++ [msg] = List.replicate (n + 1) msg :=
        (List.replicate_succ' n msg).symm
      refine ⟨step.1, ?_⟩
      rw [show dispatchN w id c (n + 1) = dispatch_to (dispatchN w id c n) id c from rfl]
      rw [step.2, hrep]

/-! ### The delivery trace is untouched by the error policy -/

theorem unload_delivered (w : World) (id : Nat) (r : String) :
    (unload w id r).delivered = w.delivered := by
  cases h : lookupM w.module_state id with
  | none => rw [unload_not_running w id r h]
  | some st => rw [unload_run w id st r h]

theorem update_errors_one_delivered (w : World) (id : Nat) (err : String) :
    (update_errors_one w id err).delivered = w.delivered := by
  cases h : w.module_errors id with
  | none => rw [update_errors_one_no_component w id err h]
  | some errs =>
      by_cases hlen : errs.length + 1 ≤ MAXIMUM_ERROR_COUNT
      · rw [update_errors_one_under w id err errs h hlen]
      · rw [update_errors_one_overflow w id err errs h (by omega), unload_delivered]

theorem run_delivered (w : World) (id : Nat) (st : ModuleState) (c : RunContext) :
    (run w id st c).delivered =
      w.delivered ++
        (if st.supports_event c.event_name then [(id, c.event_name)] else []) := by
  by_cases hsub : st.supports_event c.event_name = true
  · cases hres : run_and_catch_panics (st.behavior c.event_name) with
    | ok u =>
        cases u
        rw [run_ok w id st c hsub hres]
        simp [hsub]
    | error msg =>
        rw [run_err w id st c msg hsub hres, update_errors_one_delivered]
        simp [hsub]
  · have hs2 : st.supports_event c.event_name = false := by
      simpa using hsub
    rw [run_not_subscribed w id st c hs2]
    simp [hs2]

theorem run_all_delivered_aux (c : RunContext) (l : List (Nat × ModuleState)) (w : World) :
    (l.foldl (fun wa p => run wa p.1 p.2 c) w).delivered =
      w.delivered ++
        (l.filter (fun p => p.2.supports_event c.event_name)).map
          (fun p => (p.1, c.event_name)) := by
  induction l generalizing w with
  | nil => simp
  | cons a rest ih =>
      rw [List.foldl_cons, ih, run_delivered]
      by_cases hsub : a.2.supports_event c.event_name = true
      · simp [hsub, List.filter_cons]
      · have hs2 : a.2.supports_event c.event_name = false := by
          simpa using hsub
        simp [hs2, List.filter_cons]

/-! ### Subscription lemmas for the mandatory system events -/

theorem supports_listen_self (st : ModuleState) (n : String) :
    (st.listen_to_event n).supports_event n = true := by
  unfold ModuleState.listen_to_event
  by_cases hc : st.subscribed_event_names.contains n = true
  · rw [if_pos hc]
    exact hc
  · rw [if_neg hc]
    simp [ModuleState.supports_event]

theorem supports_listen_mono (st : ModuleState) (n m : String)
    (h : st.supports_event n = true) :
    (st.listen_to_event m).supports_event n = true := by
  unfold ModuleState.listen_to_event
  by_cases hc : st.subscribed_event_names.contains m = true
  · rw [if_pos hc]
    exact h
  · rw [if_neg hc]
    unfold ModuleState.supports_event at h ⊢
    simp at h ⊢
    exact Or.inl h

/-! ### Pending-compile bookkeeping -/

theorem load_pending (w : World) (id : Nat) (bc : List Nat) :
    (load w id bc).pending_compiles = w.pending_compiles ++ [(id, bc)] := rfl

theorem load_errors (w : World) (id : Nat) (bc : List Nat) :
    (load w id bc).module_errors = w.module_errors := rfl

theorem unload_pending (w : World) (id : Nat) (r : String) :
    (unload w id r).pending_compiles = w.pending_compiles := by
  cases h : lookupM w.module_state id with
  | none => rw [unload_not_running w id r h]
  | some st => rw [unload_run w id st r h]

theorem reload_pending (w : World) (id : Nat) (bco : Option (List Nat)) :
    (reload w id bco).pending_compiles =
      w.pending_compiles ++
        (match bco with
         | some bc => if bc = [] then [] else [(id, bc)]
         | none => []) := by
  cases bco with
  | none => simp [reload, unload_pending]
  | some bc =>
      by_cases hbc : bc = []
      · simp [reload, hbc, unload_pending]
      · simp [reload, hbc, load, unload_pending]

theorem reload_foldl_pending (l : List (Nat × Option (List Nat))) (w : World) :
    (l.foldl (fun wa p => reload wa p.1 p.2) w).pending_compiles =
      w.pending_compiles ++
        l.filterMap (fun p =>
          match p.2 with
          | some bc => if bc = [] then none else some (p.1, bc)
          | none => none) := by
  induction l generalizing w with
  | nil => simp
  | cons a rest ih =>
      rw [List.foldl_cons, ih, reload_pending]
      cases h : a.2 with
      | none => simp [List.filterMap_cons, h]
      | some bc =>
          by_cases hbc : bc = [] <;> simp [List.filterMap_cons, h, hbc]

/-! ### Tick-stage characterizations -/

theorem foldl_dispatch_eq {α : Type} (f : α → SysEvent) (l : List α) (w : World) :
    l.foldl (fun wa x => { wa with dispatched := wa.dispatched ++ [f x] }) w =
      { w with dispatched := w.dispatched ++ l.map f } := by
  induction l generalizing w with
  | nil => simp
  | cons a rest ih =>
      rw [List.foldl_cons, ih]
      simp

theorem collision_system_eq (w : World) :
    collision_system w =
      { w with dispatched := w.dispatched ++ collisionTrace w.collisions } := by
  cases h : w.collisions with
  | none =>
      simp only [collision_system, collisionTrace, h, List.append_nil]
      rw [← h]
  | some pairs =>
      simp only [collision_system, collisionTrace, h]
      rw [foldl_dispatch_eq, ← h]

theorem collider_loads_system_eq (w : World) :
    collider_loads_system w =
      { w with dispatched := w.dispatched ++ colliderTrace w.collider_loads } := by
  cases h : w.collider_loads with
  | none =>
      simp only [collider_loads_system, colliderTrace, h, List.append_nil]
      rw [← h]
  | some loads =>
      by_cases he : loads.isEmpty = true
      · simp only [collider_loads_system, colliderTrace, h, he, ite_true, List.append_nil]
        rw [← h]
      · have he2 : loads.isEmpty = false := by
          simpa using he
        simp only [collider_loads_system, colliderTrace, h, he2, Bool.false_eq_true, ite_false]

theorem pending_messages_system_eq (w : World) :
    pending_messages_system w =
      { w with
        pending_messages := [],
        dispatched := w.dispatched ++ w.pending_messages.map (fun m => SysEvent.custom m.1 m.2) } := by
  unfold pending_messages_system
  rw [foldl_dispatch_eq]

/-! ### Characterization of the change-detection system -/

theorem reload_system_pending (w : World) :
    (reload_system w).pending_compiles =
      w.pending_compiles ++
        w.enabled_changed.filterMap (fun id =>
          match w.module_bytecode id, w.module_enabled id with
          | some bc, some enabled =>
              if enabled = true ∧ (lookupM w.module_state id).isSome = false ∧ bc ≠ []
              then some (id, bc) else none
          | _, _ => none) := by
  simp only [reload_system]
  rw [reload_foldl_pending, List.filterMap_filterMap]
  congr 1
  apply List.filterMap_congr
  intro id _
  cases hbc : w.module_bytecode id with
  | none => simp [hbc]
  | some bc =>
      cases hen : w.module_enabled id with
      | none => simp [hbc, hen]
      | some enabled =>
          cases enabled with
          | false =>
              cases hst : (lookupM w.module_state id).isSome <;>
                simp [hbc, hen, hst]
          | true =>
              cases hst : (lookupM w.module_state id).isSome with
              | false =>
                  by_cases hbce : bc = [] <;> simp [hbc, hen, hst, hbce]
              | true => simp [hbc, hen, hst]

/-! ### Error-log effects of `reload` -/

theorem reload_errors_running (w : World) (id : Nat) (st : ModuleState)
    (bco : Option (List Nat)) (h : lookupM w.module_state id = some st) :
    (reload w id bco).module_errors id =
      if (w.module_errors id).isSome then some [] else w.module_errors id := by
  have hu := unload_run w id st "reloading" h
  cases bco with
  | none => simp [reload, hu]
  | some bc =>
      by_cases hbc : bc = []
      · simp [reload, hbc, hu]
      · simp [reload, hbc, load, hu]

theorem reload_errors_not_running (w : World) (id : Nat) (bco : Option (List Nat))
    (h : lookupM w.module_state id = none) :
    (reload w id bco).module_errors id = w.module_errors id := by
  have hu := unload_not_running w id "reloading" h
  cases bco with
  | none => simp [reload, hu]
  | some bc =>
      by_cases hbc : bc = []
      · simp [reload, hbc, hu]
      · simp [reload, hbc, load, hu]

/-! ### Notes produced by the error policy -/

theorem unload_notes_extends (w : World) (id : Nat) (r : String) :
    ∃ t, (unload w id r).notes = w.notes ++ t := by
  cases h : lookupM w.module_state id with
  | none =>
      rw [unload_not_running w id r h]
      exact ⟨[], by simp⟩
  | some st =>
      rw [unload_run w id st r h]
      exact ⟨[(id, MessageType.Info, "Unloaded (reason: " ++ r ++ ")")], rfl⟩

/-! ### Characterizations of `load_complete` -/

theorem load_complete_ok (w : World) (id : Nat) (sms : ModuleState) :
    load_complete w id (CallOutcome.ok sms) =
      { w with
        module_state := insertM w.module_state id
          ((sms.listen_to_event (MODULE_MESSAGE ++ "/" ++ FRAME_ID)).listen_to_event
            (MODULE_MESSAGE ++ "/" ++ MODULE_LOAD_ID)),
        dispatched := w.dispatched ++ [SysEvent.moduleLoad id] } := by
  simp [load_complete, run_and_catch_panics, autosubscribe_messages]

theorem load_complete_err (w : World) (id : Nat) (o : CallOutcome ModuleState) (e : String)
    (h : run_and_catch_panics o = Except.error e) :
    load_complete w id o = update_errors w [(id, e)] := by
  simp only [load_complete, h]

/-! ### Claims -/

/-- C1: for every Running module with an empty error log that is subscribed to
the dispatched event and whose guest call keeps failing, the first five
consecutive failing dispatches each append one entry and leave it Running
(ERROR_LIMIT = 5; unload triggers only when the log length exceeds 5), and
after exactly the sixth failing dispatch the module is unloaded with reason
"too many errors" and its error log is empty immediately after. -/
theorem error_threshold_unload (w : World) (id : Nat) (st : ModuleState) (c : RunContext)
    (msg : String)
    (hstate : lookupM w.module_state id = some st)
    (herrs : w.module_errors id = some [])
    (hsub : st.supports_event c.event_name = true)
    (hfail : run_and_catch_panics (st.behavior c.event_name) = Except.error msg) :
    lookupM (dispatchN w id c 5).module_state id = some st
    ∧ (dispatchN w id c 5).module_errors id = some (List.replicate 5 msg)
    ∧ lookupM (dispatchN w id c 6).module_state id = none
    ∧ (dispatchN w id c 6).module_errors id = some []
    ∧ (id, MessageType.Info, "Unloaded (reason: too many errors)") ∈ (dispatchN w id c 6).notes := by
  have h5 := dispatchN_fail_invariant w id st c msg hstate herrs hsub hfail 5
    (by simp [MAXIMUM_ERROR_COUNT])
  have hlen : (List.replicate 5 msg).length = MAXIMUM_ERROR_COUNT := by
    simp [MAXIMUM_ERROR_COUNT]
  have step := dispatch_fail_over (dispatchN w id c 5) id st c msg (List.replicate 5 msg)
    h5.1 h5.2 hsub hfail hlen
  have h6 : dispatchN w id c 6 = dispatch_to (dispatchN w id c 5) id c := rfl
  rw [h6]
  exact ⟨h5.1, h5.2, step.1, step.2.1, step.2.2⟩

/-- Witness for C1 at the concrete world `wRun`: module 1 is still running
with five logged errors after five failing frame dispatches, and the sixth
unloads it with reason "too many errors", leaving an empty log. -/
theorem error_threshold_unload_witness :
    lookupM (dispatchN wRun 1 ctxFrame 5).module_state 1 = some stFail
    ∧ (dispatchN wRun 1 ctxFrame 5).module_errors 1 = some (List.replicate 5 "boom")
    ∧ lookupM (dispatchN wRun 1 ctxFrame 6).module_state 1 = none
    ∧ (dispatchN wRun 1 ctxFrame 6).module_errors 1 = some []
    ∧ (1, MessageType.Info, "Unloaded (reason: too many errors)")
        ∈ (dispatchN wRun 1 ctxFrame 6).notes := by
  exact error_threshold_unload wRun 1 stFail ctxFrame "boom" rfl rfl (by decide) rfl

/-- C2: `unload` is a no-op when the module has no running state; otherwise it
dispatches one "module unloading" event to the instance before teardown,
clears the error log, removes the running state, despawns exactly the
spawned entities not marked persistent (persistent ones stay alive), and
emits one Info-kind host notification that includes the reason. -/
theorem unload_spec :
    (∀ (w : World) (id : Nat) (r : String),
        lookupM w.module_state id = none → unload w id r = w)
    ∧ (∀ (w : World) (id : Nat) (st : ModuleState) (errs : List String) (r : String),
        lookupM w.module_state id = some st → w.module_errors id = some errs →
          lookupM (unload w id r).module_state id = none
          ∧ (unload w id r).module_errors id = some []
          ∧ (unload w id r).dispatched = w.dispatched ++ [SysEvent.moduleUnload id]
          ∧ (unload w id r).notes =
              w.notes ++ [(id, MessageType.Info, "Unloaded (reason: " ++ r ++ ")")]
          ∧ (∀ e, (unload w id r).alive e =
              if e ∈ st.spawned_entities ∧ w.dont_despawn e = false then false
              else w.alive e)) := by
  constructor
  · intro w id r h
    exact unload_not_running w id r h
  · intro w id st errs r h hE
    rw [unload_run w id st r h]
    exact ⟨by simp, by simp [hE], rfl, rfl, fun e => rfl⟩

/-- Witness for C2 at the concrete world `wErr`: unloading the absent module 2
is a no-op, and unloading the running module 1 removes its state, clears its
log, notes the reason, despawns spawned entity 3 but keeps the persistent
spawned entity 4. -/
theorem unload_spec_witness :
    unload wErr 2 "nothing" = wErr
    ∧ lookupM (unload wErr 1 "stop").module_state 1 = none
    ∧ (unload wErr 1 "stop").module_errors 1 = some []
    ∧ (unload wErr 1 "stop").notes = [(1, MessageType.Info, "Unloaded (reason: stop)")]
    ∧ (unload wErr 1 "stop").alive 3 = false
    ∧ (unload wErr 1 "stop").alive 4 = true := by
  have h1 := unload_spec.1 wErr 2 "nothing" rfl
  have h2 := unload_spec.2 wErr 1 stFail ["e1", "e2"] "stop" rfl rfl
  refine ⟨h1, h2.1, h2.2.1, ?_, ?_, ?_⟩
  · exact h2.2.2.2.1
  · have h3 := h2.2.2.2.2 3
    simpa [stFail, wErr, wRun] using h3
  · have h4 := h2.2.2.2.2 4
    simpa [stFail, wErr, wRun] using h4

/-- Counterexample for C3 as stated: module 1 of `wStale` has a non-empty
error log but no running state; reloading it (enabled, non-empty bytecode)
leaves the log unchanged and non-empty instead of emptying it, because the
unload step of reload is a no-op for a module that is not running. -/
theorem reload_clears_history_cex :
    lookupM wStale.module_state 1 = none
    ∧ wStale.module_errors 1 = some ["stale error"]
    ∧ (reload wStale 1 (some [7])).module_errors 1 = some ["stale error"] := by
  exact ⟨rfl, rfl, rfl⟩

/-- C3 (amended): reload first unconditionally unloads (a no-op when the
module is not running), then triggers a load of the given bytecode if and
only if the module is enabled and the bytecode is non-empty; consequently a
RUNNING module reloaded with any prior error count ends with an empty error
log, while a module that is not running keeps its error log unchanged. -/
theorem reload_spec_amended :
    (∀ (w : World) (id : Nat) (bc : List Nat) (enabled : Bool),
        (reload w id (if enabled then some bc else none)).pending_compiles =
          w.pending_compiles ++ (if enabled = true ∧ bc ≠ [] then [(id, bc)] else []))
    ∧ (∀ (w : World) (id : Nat) (st : ModuleState) (errs : List String)
        (bco : Option (List Nat)),
        lookupM w.module_state id = some st → w.module_errors id = some errs →
          (reload w id bco).module_errors id = some [])
    ∧ (∀ (w : World) (id : Nat) (bco : Option (List Nat)),
        lookupM w.module_state id = none →
          (reload w id bco).module_errors id = w.module_errors id) := by
  refine ⟨?_, ?_, ?_⟩
  · intro w id bc enabled
    rw [reload_pending]
    cases enabled with
    | true =>
        by_cases hbc : bc = [] <;> simp [hbc]
    | false => simp
  · intro w id st errs bco h hE
    rw [reload_errors_running w id st bco h]
    simp [hE]
  · intro w id bco h
    exact reload_errors_not_running w id bco h

/-- Witness for C3 (amended): reloading the enabled module 1 of `wRun` with
bytecode [9] queues one compile; reloading running module 1 of `wErr` clears
its two-entry log; reloading the non-running module 1 of `wStale` keeps its
log. -/
theorem reload_spec_amended_witness :
    (reload wRun 1 (some [9])).pending_compiles = [(1, [9])]
    ∧ (reload wErr 1 none).module_errors 1 = some []
    ∧ (reload wStale 1 none).module_errors 1 = some ["stale error"] := by
  have h1 := reload_spec_amended.1 wRun 1 [9] true
  have h2 := reload_spec_amended.2.1 wErr 1 stFail ["e1", "e2"] none rfl rfl
  have h3 := reload_spec_amended.2.2 wStale 1 none rfl
  refine ⟨?_, h2, ?_⟩
  · simpa [wRun] using h1
  · rw [h3]
    rfl

/-- C4: a load whose compilation succeeds pre-subscribes the new instance to
the two mandatory system events (the per-tick frame event and the one-time
module-loaded event, both named under the module-message root), installs it
as the module's running state, and immediately dispatches one "module
loaded" event to that module; a load whose compilation fails routes the
rendered error through the fault-containment error policy (`update_errors`),
as if the module itself had failed. -/
theorem load_complete_spec :
    (∀ (w : World) (id : Nat) (sms : ModuleState),
        ∃ sms2,
          lookupM (load_complete w id (CallOutcome.ok sms)).module_state id = some sms2
          ∧ sms2.supports_event (MODULE_MESSAGE ++ "/" ++ FRAME_ID) = true
          ∧ sms2.supports_event (MODULE_MESSAGE ++ "/" ++ MODULE_LOAD_ID) = true
          ∧ (load_complete w id (CallOutcome.ok sms)).dispatched =
              w.dispatched ++ [SysEvent.moduleLoad id])
    ∧ (∀ (w : World) (id : Nat) (o : CallOutcome ModuleState) (e : String),
        run_and_catch_panics o = Except.error e →
          load_complete w id o = update_errors w [(id, e)]) := by
  constructor
  · intro w id sms
    rw [load_complete_ok]
    refine ⟨(sms.listen_to_event (MODULE_MESSAGE ++ "/" ++ FRAME_ID)).listen_to_event
      (MODULE_MESSAGE ++ "/" ++ MODULE_LOAD_ID), by simp, ?_, ?_, rfl⟩
    · exact supports_listen_mono _ _ _ (supports_listen_self _ _)
    · exact supports_listen_self _ _
  · intro w id o e h
    exact load_complete_err w id o e h

/-- Witness for C4: completing a successful compile of `freshState` for
module 1 installs a state subscribed to both mandatory events and dispatches
one module-loaded event; completing a panicked compile routes the panic
message through the error policy. -/
theorem load_complete_spec_witness :
    (∃ sms2,
        lookupM (load_complete emptyWorld 1 (CallOutcome.ok freshState)).module_state 1 =
          some sms2
        ∧ sms2.supports_event (MODULE_MESSAGE ++ "/" ++ FRAME_ID) = true
        ∧ sms2.supports_event (MODULE_MESSAGE ++ "/" ++ MODULE_LOAD_ID) = true
        ∧ (load_complete emptyWorld 1 (CallOutcome.ok freshState)).dispatched =
            [SysEvent.moduleLoad 1])
    ∧ load_complete emptyWorld 1 (CallOutcome.panicString "guest panic") =
        update_errors emptyWorld [(1, "guest panic")] := by
  constructor
  · obtain ⟨sms2, h1, h2, h3, h4⟩ := load_complete_spec.1 emptyWorld 1 freshState
    exact ⟨sms2, h1, h2, h3, by simpa using h4⟩
  · exact load_complete_spec.2 emptyWorld 1 (CallOutcome.panicString "guest panic")
      "guest panic" rfl

/-- C5: one event dispatch (`run_all`) delivers the event exactly to the
modules that have a running state and whose subscribed event names contain
the event's name — a non-subscribed or non-running module is never invoked —
and a module whose delivery errors does not prevent delivery of the same
event to the remaining subscribed modules: the delivered trace below is
independent of every guest outcome. -/
theorem event_delivery_exact (w : World) (c : RunContext) :
    (run_all w c).delivered =
      w.delivered ++
        (w.module_state.filter (fun p => p.2.supports_event c.event_name)).map
          (fun p => (p.1, c.event_name)) := by
  unfold run_all
  exact run_all_delivered_aux c w.module_state w

/-- C6: one tick of the event-generation systems synthesizes, in this fixed
order: "frame" (always), then one collision event per colliding actor pair
carrying the associated entity ids (skipped entirely when no physics data is
available), then one batched collider-loads event carrying all entities
whose colliders finished loading (skipped when absent or empty), and then
all queued cross-module/host messages, drained and run one by one. -/
theorem tick_event_order (w : World) :
    tick_events w =
      { w with
        pending_messages := [],
        dispatched := w.dispatched
          ++ [SysEvent.frame]
          ++ collisionTrace w.collisions
          ++ colliderTrace w.collider_loads
          ++ w.pending_messages.map (fun m => SysEvent.custom m.1 m.2) } := by
  unfold tick_events frame_system
  rw [collision_system_eq]
  rw [collider_loads_system_eq]
  rw [pending_messages_system_eq]

/-- Counterexample for C7 as stated: in `wByte` a bytecode change was
reported for module 1 (no enabled-flag change); the module is enabled with
non-empty bytecode and no running state, so the claimed detection would
reload it and trigger a load, but the code's change-detection system leaves
the world untouched because its ECS change filter is attached to
`module_enabled` only. -/
theorem change_detection_cex :
    wByte.bytecode_changed = [1]
    ∧ wByte.enabled_changed = []
    ∧ wByte.module_enabled 1 = some true
    ∧ wByte.module_bytecode 1 = some [7]
    ∧ lookupM wByte.module_state 1 = none
    ∧ (reload_system wByte).pending_compiles = []
    ∧ (reload_system_claim wByte).pending_compiles = [(1, [7])] := by
  exact ⟨rfl, rfl, rfl, rfl, rfl, rfl, rfl⟩

/-- C7 (amended): on every tick the change-detection system reloads exactly
those modules possessing bytecode for which an ENABLED-FLAG change occurred
and whose enabled flag differs from whether they currently have a running
state — queueing a compile exactly for the enabled, non-running ones with
non-empty bytecode — and its behavior is independent of the reported
bytecode changes: a bytecode change alone does not trigger detection. -/
theorem change_detection_amended :
    (∀ w : World,
        (reload_system w).pending_compiles =
          w.pending_compiles ++
            w.enabled_changed.filterMap (fun id =>
              match w.module_bytecode id, w.module_enabled id with
              | some bc, some enabled =>
                  if enabled = true ∧ (lookupM w.module_state id).isSome = false ∧ bc ≠ []
                  then some (id, bc) else none
              | _, _ => none))
    ∧ (∀ (w : World) (l : List Nat),
        (reload_system { w with bytecode_changed := l }).pending_compiles =
          (reload_system w).pending_compiles) := by
  constructor
  · exact reload_system_pending
  · intro w l
    rw [reload_system_pending]
    rw [reload_system_pending]

/-- C8: every guest invocation wrapped by the fault-containment boundary
yields a result rather than propagating: any non-Ok outcome — including an
abnormal termination (panic) — is converted into a descriptive error string
(the panic's string payload, or "unknown error" for other payloads), and a
normal failure result yields its immediate cause followed by the underlying
root cause exactly when the root cause differs from the immediate cause. -/
theorem fault_containment_spec :
    (∀ o : CallOutcome Unit, (∀ r, o ≠ CallOutcome.ok r) →
        ∃ s, run_and_catch_panics o = Except.error s)
    ∧ (∀ s : String,
        run_and_catch_panics (CallOutcome.panicString s : CallOutcome Unit) = Except.error s)
    ∧ (∀ s : String,
        run_and_catch_panics (CallOutcome.panicStr s : CallOutcome Unit) = Except.error s)
    ∧ run_and_catch_panics (CallOutcome.panicOther : CallOutcome Unit) =
        Except.error "unknown error"
    ∧ (∀ display root : String,
        run_and_catch_panics (CallOutcome.errResult display root : CallOutcome Unit) =
          Except.error (if root = display then display
                        else display ++ "\nRoot cause: " ++ root)) := by
  refine ⟨?_, fun s => rfl, fun s => rfl, rfl, fun display root => rfl⟩
  intro o h
  cases o with
  | ok r => exact absurd rfl (h r)
  | errResult d rc => exact ⟨_, rfl⟩
  | panicString s => exact ⟨s, rfl⟩
  | panicStr s => exact ⟨s, rfl⟩
  | panicOther => exact ⟨_, rfl⟩

/-- Witness for C8: a panic with a non-string payload is contained as an
error string, and a normal failure whose root cause differs is rendered as
the immediate cause followed by the root cause. -/
theorem fault_containment_spec_witness :
    (∃ s, run_and_catch_panics (CallOutcome.panicOther : CallOutcome Unit) = Except.error s)
    ∧ run_and_catch_panics (CallOutcome.errResult "call failed" "io error" : CallOutcome Unit) =
        Except.error "call failed\nRoot cause: io error" := by
  constructor
  · exact fault_containment_spec.1 CallOutcome.panicOther
      (fun r h => CallOutcome.noConfusion h)
  · exact (fault_containment_spec.2.2.2.2 "call failed" "io error").trans rfl

/-- C9: `send` silently drops any event whose name begins with the reserved
"dims/" prefix — the shared state (queue and subscription set) is completely
unchanged, so such an event can never appear in any subscriber's
received-event list, regardless of subscription state; any other event is
appended to the pending-event queue for a later explicit drain step rather
than being dispatched immediately, leaving subscriptions untouched. -/
theorem send_namespace_filtering :
    (∀ (s : EventSharedState) (name : String) (d : EventData),
        starts_with name "dims/" = true → send s name d = s)
    ∧ (∀ (s : EventSharedState) (name : String) (d : EventData),
        starts_with name "dims/" = false →
          (send s name d).events = s.events ++ [(name, d)]
          ∧ (send s name d).subscribed_events = s.subscribed_events) := by
  constructor
  · intro s name d h
    simp [send, h]
  · intro s name d h
    simp [send, h]

/-- Witness for C9: a "dims/" event leaves `sEvents` unchanged; a "ping"
event is queued at the back with subscriptions untouched. -/
theorem send_namespace_filtering_witness :
    send sEvents "dims/debug" [("x", 1)] = sEvents
    ∧ (send sEvents "ping" [("x", 1)]).events = [("prev", []), ("ping", [("x", 1)])]
    ∧ (send sEvents "ping" [("x", 1)]).subscribed_events = ["x"] := by
  have h1 := send_namespace_filtering.1 sEvents "dims/debug" [("x", 1)] (by decide)
  have h2 := send_namespace_filtering.2 sEvents "ping" [("x", 1)] (by decide)
  exact ⟨h1, by simpa [sEvents] using h2.1, by simpa [sEvents] using h2.2⟩

/-- C10: for every error routed through the policy, the host messenger is
invoked with Error kind and a message prefixed "Runtime error: ", and that
notification precedes in the messenger trace anything the rest of the policy
emits; when the target module has no error-log component the notification
still occurs but the world is otherwise untouched: no log append, no
threshold check, no forced unload. -/
theorem error_policy_spec :
    (∀ (w : World) (id : Nat) (err : String),
        ∃ t, (update_errors w [(id, err)]).notes =
          w.notes ++ [(id, MessageType.Error, "Runtime error: " ++ err)] ++ t)
    ∧ (∀ (w : World) (id : Nat) (err : String),
        w.module_errors id = none →
          update_errors w [(id, err)] =
            { w with notes := w.notes ++ [(id, MessageType.Error, "Runtime error: " ++ err)] }) := by
  constructor
  · intro w id err
    rw [update_errors_single]
    cases hE : w.module_errors id with
    | none =>
        rw [update_errors_one_no_component w id err hE]
        exact ⟨[], by simp⟩
    | some errs =>
        by_cases hlen : errs.length + 1 ≤ MAXIMUM_ERROR_COUNT
        · rw [update_errors_one_under w id err errs hE hlen]
          exact ⟨[], by simp⟩
        · rw [update_errors_one_overflow w id err errs hE (by omega)]
          obtain ⟨t, ht⟩ := unload_notes_extends _ id "too many errors"
          exact ⟨t, ht⟩
  · intro w id err h
    rw [update_errors_single]
    exact update_errors_one_no_component w id err h

/-- Witness for C10: routing an error for module 1 of `wRun` puts the
Error-kind "Runtime error: " notification first in the trace; routing one
for entity 7 of `emptyWorld`, which has no error-log component, produces
only that notification. -/
theorem error_policy_spec_witness :
    (∃ t, (update_errors wRun [(1, "bad")]).notes =
        [(1, MessageType.Error, "Runtime error: bad")] ++ t)
    ∧ update_errors emptyWorld [(7, "bad")] =
        { emptyWorld with notes := [(7, MessageType.Error, "Runtime error: bad")] } := by
  constructor
  · obtain ⟨t, ht⟩ := error_policy_spec.1 wRun 1 "bad"
    exact ⟨t, by simpa [wRun] using ht⟩
  · have h := error_policy_spec.2 emptyWorld 7 "bad" rfl
    simpa [emptyWorld] using h
